import Mathlib

/-!
Verification of the nlshell command safety classification and execution engine.

The definitions below are a shallow embedding of `src/ai_agent.py` and
`src/nlshell.py`.  Regular-expression patterns from `_init_safety_rules` are
embedded as a small regex datatype with a Brzozowski-derivative matcher whose
semantics follow Python's `re.match`: matching is anchored at the start of the
string, a match may cover any prefix, `.` matches any character except a
newline (no DOTALL flag is set in the source), `\s` is the whitespace class,
and a trailing `$` matches at the end of the string or just before a final
newline.
-/

namespace NLShell

/-- Characters of Python's regex class `\s` (also the characters removed by
`str.strip()` in the ASCII range, which is the range exercised here). -/
def isPySpace (c : Char) : Bool :=
  c = ' ' || c = '\t' || c = '\n' || c = '\r' || c = '\x0b' || c = '\x0c'


/-- Python's regex class `\d` restricted to ASCII digits (no re.UNICODE
subtleties arise for the byte-oriented command strings handled here). -/
def isPyDigit (c : Char) : Bool :=
  '0' ≤ c && c ≤ '9'


/-- Python's regex `.` without DOTALL: any character except a newline. -/
def isPyDot (c : Char) : Bool :=
  c ≠ '\n'


/-- Regular expressions, the text-matching expressions of the safety rules. -/
inductive RE where
  | emp : RE
  | eps : RE
  | chr : Char → RE
  | cls : (Char → Bool) → RE
  | cat : RE → RE → RE
  | alt : RE → RE → RE
  | star : RE → RE


/-- Whether the regex accepts the empty string. -/
def nullable : RE → Bool
  | .emp => false
  | .eps => true
  | .chr _ => false
  | .cls _ => false
  | .cat a b => nullable a && nullable b
  | .alt a b => nullable a || nullable b
  | .star _ => true


/-- Brzozowski derivative of a regex with respect to one character. -/
def deriv : RE → Char → RE
  | .emp, _ => .emp
  | .eps, _ => .emp
  | .chr a, c => if c = a then .eps else .emp
  | .cls p, c => if p c then .eps else .emp
  | .cat a b, c => if nullable a then .alt (.cat (deriv a c) b) (deriv b c) else .cat (deriv a c) b
  | .alt a b, c => .alt (deriv a c) (deriv b c)
  | .star a, c => .cat (deriv a c) (.star a)


/-- Prefix matching: `matchP r s` holds when some prefix of `s` belongs to the
language of `r`.  This is the semantics of Python's `re.match` for a pattern
without an end anchor. -/
def matchP : RE → List Char → Bool
  | r, [] => nullable r
  | r, c :: s => nullable r || matchP (deriv r c) s


/-- Full matching: the whole string belongs to the language of `r`.  Used for
patterns that end with `$` (whose embedded regex carries the `$` alternatives
explicitly, see `dollarEnd`). -/
def matchFull : RE → List Char → Bool
  | r, [] => nullable r
  | r, c :: s => matchFull (deriv r c) s


/-- Sequencing of regex pieces, right nested so that literal characters are in
head position for the unfolding lemmas above. -/
def pseq : List RE → RE
  | [] => .eps
  | r :: rs => .cat r (pseq rs)


/-- Literal character sequence. -/
def lit (s : List Char) : List RE := s.map RE.chr


/-- regex `\s` -/
def wsP : RE := .cls isPySpace


/-- regex `\s+` -/
def wsPlus : RE := .cat wsP (.star wsP)


/-- regex `\s*` -/
def wsStar : RE := .star wsP


/-- regex `.*` -/
def dotStar : RE := .star (.cls isPyDot)


/-- regex `\d+` -/
def digits : RE := .cat (.cls isPyDigit) (.star (.cls isPyDigit))


/-- Trailing `$` of a Python pattern, used under full-match semantics: the
match must end at the end of the string or consume exactly one final
newline. -/
def dollarEnd : RE := .alt .eps (.chr '\n')


/-- A compiled pattern: the regex, and whether the source pattern ended with
`$` (in which case `dollarEnd` is the last piece of `re` and matching is
full-string matching instead of prefix matching). -/
structure Pat where
  re : RE
  anchEnd : Bool


/-- Semantics of `re.match(pattern, s)` as used by `check_command_safety`. -/
def pmatch (p : Pat) (s : List Char) : Bool :=
  if p.anchEnd then matchFull p.re s else matchP p.re s


/-- Pattern without `$`. -/
def mkPat (l : List RE) : Pat := ⟨pseq l, false⟩


/-- Pattern whose source text ends with `$`. -/
def mkPatE (l : List RE) : Pat := ⟨pseq (l ++ [dollarEnd]), true⟩


def patLs : Pat := mkPat (lit ['l', 's'] ++ [wsP])

def patFind : Pat := mkPat (lit ['f', 'i', 'n', 'd'] ++ [wsP, dotStar] ++ lit ['-', 't', 'y', 'p', 'e'] ++ [wsPlus, .chr 'f', dotStar] ++ lit ['-', 'e', 'x', 'e', 'c'] ++ [wsPlus] ++ lit ['l', 's'] ++ [wsPlus] ++ lit ['-', 'l', 'h'])

def patDu : Pat := mkPat (lit ['d', 'u'] ++ [wsPlus] ++ lit ['-', 'h'] ++ [dotStar] ++ lit ['-', '-', 'm', 'a', 'x', '-', 'd', 'e', 'p', 't', 'h'])

def patDf : Pat := mkPat (lit ['d', 'f'] ++ [wsPlus] ++ lit ['-', 'h'])

def patWc : Pat := mkPat (lit ['w', 'c'] ++ [wsPlus] ++ lit ['-', 'l'])

def patFile : Pat := mkPat (lit ['f', 'i', 'l', 'e'] ++ [wsPlus])

def patHead : Pat := mkPat (lit ['h', 'e', 'a', 'd'] ++ [wsPlus] ++ lit ['-', 'n'] ++ [wsPlus, digits])

def patTail : Pat := mkPat (lit ['t', 'a', 'i', 'l'] ++ [wsPlus] ++ lit ['-', 'n'] ++ [wsPlus, digits])

def patGrep : Pat := mkPat (lit ['g', 'r', 'e', 'p'] ++ [wsPlus, dotStar] ++ lit ['-', '-', 'c', 'o', 'l', 'o', 'r', '=', 'n', 'e', 'v', 'e', 'r'])

def patStat : Pat := mkPat (lit ['s', 't', 'a', 't'] ++ [wsPlus])

def patPwd : Pat := mkPatE (lit ['p', 'w', 'd'])

def patWhoami : Pat := mkPatE (lit ['w', 'h', 'o', 'a', 'm', 'i'])

def patUname : Pat := mkPat (lit ['u', 'n', 'a', 'm', 'e'] ++ [wsPlus] ++ lit ['-', 'a'])

def patPs : Pat := mkPat (lit ['p', 's'] ++ [wsPlus] ++ lit ['a', 'u', 'x'])

def patTop : Pat := mkPat (lit ['t', 'o', 'p'] ++ [wsPlus] ++ lit ['-', 'b'] ++ [wsPlus] ++ lit ['-', 'n', '1'])

def patFree : Pat := mkPat (lit ['f', 'r', 'e', 'e'] ++ [wsPlus] ++ lit ['-', 'h'])

def patUptime : Pat := mkPatE (lit ['u', 'p', 't', 'i', 'm', 'e'])


/-- the group `(txt|log|conf|json|xml|csv)` -/
def extAlt : RE :=
  .alt (pseq (lit ['t', 'x', 't']))
    (.alt (pseq (lit ['l', 'o', 'g']))
      (.alt (pseq (lit ['c', 'o', 'n', 'f']))
        (.alt (pseq (lit ['j', 's', 'o', 'n']))
          (.alt (pseq (lit ['x', 'm', 'l'])) (pseq (lit ['c', 's', 'v']))))))


def patCat : Pat := mkPatE (lit ['c', 'a', 't'] ++ [wsPlus, dotStar, .chr '.', extAlt])


def patRm : Pat := mkPat (lit ['r', 'm'] ++ [wsPlus])

def patSudo : Pat := mkPat (lit ['s', 'u', 'd', 'o'] ++ [wsPlus])

def patChmod : Pat := mkPat (lit ['c', 'h', 'm', 'o', 'd'] ++ [wsPlus])

def patChown : Pat := mkPat (lit ['c', 'h', 'o', 'w', 'n'] ++ [wsPlus])

def patMv : Pat := mkPat (lit ['m', 'v'] ++ [wsPlus])

def patCp : Pat := mkPat (lit ['c', 'p'] ++ [wsPlus, dotStar, .chr '>', wsStar, .chr '/'])

def patRedirEtc : Pat := mkPat ([.chr '>', wsStar] ++ lit ['/', 'e', 't', 'c', '/'])

def patRedirUsr : Pat := mkPat ([.chr '>', wsStar] ++ lit ['/', 'u', 's', 'r', '/'])

def patRedirBin : Pat := mkPat ([.chr '>', wsStar] ++ lit ['/', 'b', 'i', 'n', '/'])

def patDd : Pat := mkPat (lit ['d', 'd'] ++ [wsPlus])

def patFdisk : Pat := mkPat (lit ['f', 'd', 'i', 's', 'k'] ++ [wsPlus])

def patMkfs : Pat := mkPat (lit ['m', 'k', 'f', 's'] ++ [wsPlus])

def patMount : Pat := mkPat (lit ['m', 'o', 'u', 'n', 't'] ++ [wsPlus])

def patUmount : Pat := mkPat (lit ['u', 'm', 'o', 'u', 'n', 't'] ++ [wsPlus])

def patKill9 : Pat := mkPat (lit ['k', 'i', 'l', 'l'] ++ [wsPlus] ++ lit ['-', '9'])

def patKillall : Pat := mkPat (lit ['k', 'i', 'l', 'l', 'a', 'l', 'l'] ++ [wsPlus])

def patShutdown : Pat := mkPat (lit ['s', 'h', 'u', 't', 'd', 'o', 'w', 'n'] ++ [wsPlus])

def patReboot : Pat := mkPat (lit ['r', 'e', 'b', 'o', 'o', 't'] ++ [wsPlus])

def patPoweroff : Pat := mkPat (lit ['p', 'o', 'w', 'e', 'r', 'o', 'f', 'f'] ++ [wsPlus])

def patHalt : Pat := mkPat (lit ['h', 'a', 'l', 't'] ++ [wsPlus])

def patCurlBash : Pat := mkPat (lit ['c', 'u', 'r', 'l'] ++ [dotStar, .chr '|', wsStar] ++ lit ['b', 'a', 's', 'h'])

def patWgetBash : Pat := mkPat (lit ['w', 'g', 'e', 't'] ++ [dotStar, .chr '|', wsStar] ++ lit ['b', 'a', 's', 'h'])


/-- Record `SafetyRule` of ai_agent.py. -/
structure SafetyRule where
  pattern : Pat
  allowed : Bool
  reason : String
  auto_execute : Bool


/-- Table `AIAgent._init_safety_rules`, in declaration order. -/
def safety_rules : List SafetyRule := [
  ⟨patLs, true, "Safe file listing", true⟩,
  ⟨patFind, true, "Safe file search with size", true⟩,
  ⟨patDu, true, "Safe disk usage check", true⟩,
  ⟨patDf, true, "Safe disk space check", true⟩,
  ⟨patWc, true, "Safe line count", true⟩,
  ⟨patFile, true, "Safe file type detection", true⟩,
  ⟨patHead, true, "Safe file preview", true⟩,
  ⟨patTail, true, "Safe file preview", true⟩,
  ⟨patGrep, true, "Safe text search", true⟩,
  ⟨patStat, true, "Safe file statistics", true⟩,
  ⟨patPwd, true, "Safe current directory", true⟩,
  ⟨patWhoami, true, "Safe user info", true⟩,
  ⟨patUname, true, "Safe system info", true⟩,
  ⟨patPs, true, "Safe process listing", true⟩,
  ⟨patTop, true, "Safe system snapshot", true⟩,
  ⟨patFree, true, "Safe memory info", true⟩,
  ⟨patUptime, true, "Safe uptime info", true⟩,
  ⟨patCat, true, "Safe text file reading", true⟩,
  ⟨patRm, false, "File deletion not allowed", false⟩,
  ⟨patSudo, false, "Elevated privileges not allowed", false⟩,
  ⟨patChmod, false, "Permission changes not allowed", false⟩,
  ⟨patChown, false, "Ownership changes not allowed", false⟩,
  ⟨patMv, false, "File moving not allowed", false⟩,
  ⟨patCp, false, "System file copying not allowed", false⟩,
  ⟨patRedirEtc, false, "System directory writing not allowed", false⟩,
  ⟨patRedirUsr, false, "System directory writing not allowed", false⟩,
  ⟨patRedirBin, false, "System directory writing not allowed", false⟩,
  ⟨patDd, false, "Direct disk access not allowed", false⟩,
  ⟨patFdisk, false, "Disk partitioning not allowed", false⟩,
  ⟨patMkfs, false, "Filesystem creation not allowed", false⟩,
  ⟨patMount, false, "Mounting not allowed", false⟩,
  ⟨patUmount, false, "Unmounting not allowed", false⟩,
  ⟨patKill9, false, "Force kill not allowed", false⟩,
  ⟨patKillall, false, "Mass process termination not allowed", false⟩,
  ⟨patShutdown, false, "System shutdown not allowed", false⟩,
  ⟨patReboot, false, "System reboot not allowed", false⟩,
  ⟨patPoweroff, false, "System poweroff not allowed", false⟩,
  ⟨patHalt, false, "System halt not allowed", false⟩,
  ⟨patCurlBash, false, "Piped execution not allowed", false⟩,
  ⟨patWgetBash, false, "Piped execution not allowed", false⟩]


def patEcho : Pat := mkPat (lit ['e', 'c', 'h', 'o'] ++ [wsPlus])

def patWhich : Pat := mkPat (lit ['w', 'h', 'i', 'c', 'h'] ++ [wsPlus])

def patType : Pat := mkPat (lit ['t', 'y', 'p', 'e'] ++ [wsPlus])

def patHistory : Pat := mkPatE (lit ['h', 'i', 's', 't', 'o', 'r', 'y'] ++ [wsStar])

def patDate : Pat := mkPatE (lit ['d', 'a', 't', 'e'] ++ [wsStar])


/-- The secondary `safe_patterns` list inside `check_command_safety`. -/
def safe_patterns : List Pat := [patEcho, patWhich, patType, patHistory, patDate]


/-- Python `str.strip()`: remove leading and trailing whitespace. -/
def pyStrip (l : List Char) : List Char :=
  ((l.dropWhile isPySpace).reverse.dropWhile isPySpace).reverse


/-- Normalization `command.lower().strip()` applied applied by
`check_command_safety` before any pattern is tried. -/
def norm (s : String) : List Char :=
  pyStrip (s.toList.map Char.toLower)


/-- The `for rule in self.safety_rules: if re.match(...)` loop: first matching
rule, scanning in declaration order. -/
def findRule : List SafetyRule → List Char → Option SafetyRule
  | [], _ => none
  | r :: rs, s => if pmatch r.pattern s then some r else findRule rs s


/-- Body of `check_command_safety` after normalization. -/
def classifyN (cl : List Char) : Bool × Bool × String :=
  match findRule safety_rules cl with
  | some r => (r.allowed, r.auto_execute && r.allowed, r.reason)
  | none =>
    if safe_patterns.any (fun p => pmatch p cl) then (true, true, "Basic safe command")
    else (true, false, "Requires user confirmation")


/-- Classifier `AIAgent.check_command_safety`: returns `(is_safe, auto_execute, reason)`. -/
def check_command_safety (command : String) : Bool × Bool × String :=
  classifyN (norm command)


/-- Python `hay.startswith(pre)` on character lists (arguments: haystack, then the
candidate leading piece). -/
def startsWithL : List Char → List Char → Bool
  | _, [] => true
  | [], _ :: _ => false
  | c :: cs, p :: ps => c = p && startsWithL cs ps


/-- Python `hay.endswith(suf)` on character lists. -/
def endsWithL (hay suf : List Char) : Bool :=
  startsWithL hay.reverse suf.reverse


/-- Python's `needle in hay` substring test (arguments: haystack, needle). -/
def containsL : List Char → List Char → Bool
  | hay, needle =>
    startsWithL hay needle ||
      match hay with
      | [] => false
      | _ :: t => containsL t needle


/-- Python `os.path.expanduser`: expand a leading `~` to the home directory.  A
`~user` form consults the user database in the source; it is modeled as
returned unchanged, which is also the source's behavior when the database has
no entry for `user`.  `home` is assumed not to end in a slash. -/
def expanduser (home : String) (p : String) : String :=
  if p = "~" then home
  else if startsWithL p.toList ['~', '/'] then home ++ p.drop 1
  else p


/-- First whitespace-separated token of an already stripped string:
`cmd.strip().split()[0]`. -/
def firstToken (l : List Char) : List Char :=
  l.takeWhile (fun c => !isPySpace c)


/-- Oracle for everything the engine asks of the operating system.  Each field
stands for one OS interaction of the source; theorems quantify over all
oracles, so no behavior is assumed beyond the shape of each call. -/
structure Sys where
  /-- `str(Path.home())` / `Path.home()` -/
  home : String
  /-- `os.chdir(target)` from a current directory followed by `os.getcwd()`:
  `some newCwd` on success, `none` when `os.chdir` raises `OSError`. -/
  chdir : String → String → Option String
  /-- `str(e)` for the `OSError` raised by `os.chdir` (cwd, target). -/
  chdirErr : String → String → String
  /-- `os.path.isfile(tok) and os.access(tok, os.X_OK)` for a first token,
  pattern 4 of `_is_interactive_command`. -/
  isExecFile : String → Bool
  /-- `asyncio.create_subprocess_shell` + `communicate` in `nlshell.py`
  (exit code, stdout, stderr); spawn failures are already folded to
  `(1, "", message)` by the enclosing `except` clause. -/
  shellExec : String → Int × String × String
  /-- result triple of `_execute_interactive_command` for a command. -/
  ptyExec : String → Int × String × String


/-- Result of `AIAgent.auto_execute_safe_command` together with its observable
effects. -/
structure AgentResult where
  rc : Int
  out : String
  err : String
  /-- whether a child process was created -/
  spawned : Bool
  /-- directory change performed by the `cd` branch, if any -/
  newCwd : Option String


/-- Message `str(e)` for the `NameError` raised by evaluating
`asyncio.create_subprocess_shell` in `ai_agent.py`: the module imports
`subprocess` but never `asyncio`, so the name `asyncio` is unbound and the
spawn expression raises before any child process is created; the exception is
captured by the surrounding `except Exception` clause. -/
def nameErr : String := "name 'asyncio' is not defined"


/-- Function `AIAgent.auto_execute_safe_command`. -/
def auto_execute_safe_command (sys : Sys) (cwd : String) (command : String) : AgentResult :=
  let r := check_command_safety command
  if !r.1 then ⟨1, "", "Command blocked for safety: " ++ r.2.2, false, none⟩
  else if !r.2.1 then ⟨1, "", "Command requires manual confirmation: " ++ r.2.2, false, none⟩
  else
    let sc := pyStrip command.toList
    if startsWithL sc ['c', 'd', ' '] then
      let path0 := pyStrip (sc.drop 3)
      let path := if path0 = [] then sys.home.toList else path0
      let target := expanduser sys.home (String.mk path)
      match sys.chdir cwd target with
      | some newCwd => ⟨0, "Changed directory to " ++ newCwd, "", false, some newCwd⟩
      | none => ⟨1, "", sys.chdirErr cwd target, false, none⟩
    else
      ⟨1, "", nameErr, false, none⟩


/-- The shell's WorkingDirectoryState: the process working directory
(`os.getcwd()`) and the shell's `self.current_dir`, kept in sync by the `cd`
branch of `_execute_command`. -/
structure ShellState where
  processCwd : String
  currentDir : String
deriving DecidableEq


/-- Which executor `_execute_command` handed the command to. -/
inductive Route where
  | cdRoute
  | ptyRoute
  | batchRoute
deriving DecidableEq


/-- Detector `NLShell._is_interactive_command`: the four heuristic patterns, any
match means interactive.  `any` short-circuits, so pattern 4's filesystem
probe runs only when patterns 1-3 all failed; since pattern 4 first requires
a `/` in the command, its `split()[0]` indexing cannot fault. -/
def is_interactive_command (sys : Sys) (cmd : String) : Bool :=
  let cl := cmd.toList
  let st := pyStrip cl
  (["exe", "out", "bin"].any fun ext =>
      startsWithL st ('.' :: '/' :: ext.toList) || endsWithL st ('.' :: ext.toList)) ||
  (startsWithL st ['.', '/'] &&
      !([".txt", ".log", ".conf"].any fun ext => containsL cl ext.toList)) ||
  (["python -i", "node", "irb", "ghci"].any fun prog =>
      containsL (cl.map Char.toLower) prog.toList) ||
  (cl.contains '/' && sys.isExecFile (String.mk (firstToken st)))


/-- Target directory computed by the `cd` branch of `_execute_command`:
`command.strip()[3:].strip()`, defaulting to the home directory when empty,
then `os.path.expanduser`. -/
def cdTarget (sys : Sys) (cmd : String) : String :=
  let sc := pyStrip cmd.toList
  let path0 := pyStrip (sc.drop 3)
  let path := if path0 = [] then sys.home.toList else path0
  expanduser sys.home (String.mk path)


/-- Dispatcher `NLShell._execute_command`: the `cd` special case, then the interactivity
dispatch to the PTY session, otherwise the batch subprocess.  Returns the
route taken, the `(returncode, stdout, stderr)` triple, and the resulting
WorkingDirectoryState (a spawned child never mutates the parent's state). -/
def execute_command (sys : Sys) (st : ShellState) (cmd : String) :
    Route × (Int × String × String) × ShellState :=
  if startsWithL (pyStrip cmd.toList) ['c', 'd', ' '] then
    let target := cdTarget sys cmd
    match sys.chdir st.processCwd target with
    | some newCwd => (.cdRoute, (0, "Changed directory to " ++ newCwd, ""), ⟨newCwd, newCwd⟩)
    | none => (.cdRoute, (1, "", sys.chdirErr st.processCwd target), st)
  else if is_interactive_command sys cmd then
    (.ptyRoute, sys.ptyExec cmd, st)
  else
    (.batchRoute, sys.shellExec cmd, st)


/-- The `for i, command in enumerate(commands, 1)` loop of
`NLShell._execute_commands_with_confirmation`.  Returns the list of executed
commands with their exit codes, the `success_count`, and the final
WorkingDirectoryState.  On a non-zero exit code the loop body reaches
`break` only inside the `if not auto_confirm:` block (after forwarding the
failure to `_handle_command_error`, whose AI-driven retries are outside this
sequence); with `auto_confirm` set, the loop continues with the next
command. -/
def execLoop (sys : Sys) (auto_confirm : Bool) :
    ShellState → List String → List (String × Int) × Nat × ShellState
  | st, [] => ([], 0, st)
  | st, c :: rest =>
    let r := execute_command sys st c
    let rc := r.2.1.1
    if rc = 0 then
      let t := execLoop sys auto_confirm r.2.2 rest
      ((c, rc) :: t.1, t.2.1 + 1, t.2.2)
    else if auto_confirm then
      let t := execLoop sys auto_confirm r.2.2 rest
      ((c, rc) :: t.1, t.2.1, t.2.2)
    else
      ([(c, rc)], 0, r.2.2)


/-- Wrapper `NLShell._execute_commands_with_confirmation`: empty batches and a
declined confirmation prompt run nothing; otherwise the loop above runs and
the function returns `success_count > 0`. -/
def execute_commands_with_confirmation (sys : Sys) (auto_confirm confirmAnswer : Bool)
    (st : ShellState) (commands : List String) :
    List (String × Int) × ShellState × Bool :=
  if commands = [] then ([], st, false)
  else if !auto_confirm && !confirmAnswer then ([], st, false)
  else
    let t := execLoop sys auto_confirm st commands
    (t.1, t.2.2, decide (0 < t.2.1))


/-- Group-directed signals sent by the KeyboardInterrupt handler of
`_execute_interactive_command` (`os.killpg(os.getpgid(process.pid), ...)`). -/
inductive SigEvent where
  | termGroup
  | killGroup
deriving DecidableEq


/-- How the Multiplexing/Draining phase (the inner `try` of
`_execute_interactive_command`, lines 409-465) was exited. -/
inductive MuxExit where
  /-- the `while process.poll() is None` loop ended and the drain loop
  finished; `process.wait()` returned `rc` -/
  | completed (rc : Int)
  /-- an exception other than `KeyboardInterrupt` escaped the phase -/
  | raised
  /-- a `KeyboardInterrupt` arrived during the phase -/
  | interrupted
deriving DecidableEq


/-- Environment of one PTY session: the caller's terminal attributes
(abstract), what `tcgetattr`/`setraw` do, how the multiplexing phase exits,
and whether the group signals of the interrupt handler can be delivered. -/
structure PtyEnv where
  /-- terminal attributes of the caller before the session -/
  callerAttrs : Nat
  /-- attributes installed by `tty.setraw` -/
  rawAttrs : Nat
  /-- `termios.tcgetattr(sys.stdin.fileno())` succeeds (stdin is a tty) -/
  tcgetattrOk : Bool
  /-- `tty.setraw` succeeds after a successful capture -/
  setrawOk : Bool
  muxExit : MuxExit
  /-- `os.killpg(..., SIGTERM)` is delivered without raising -/
  termSignalOk : Bool
  /-- the child exits within the `process.wait(timeout=2)` window -/
  termWaitOk : Bool
  /-- `os.killpg(..., SIGKILL)` is delivered without raising -/
  killSignalOk : Bool


/-- Observable outcome of one PTY session. -/
structure PtyResult where
  /-- first component of the returned triple (`1` when an exception escaped
  the phase and was converted by the outer `except Exception` clause) -/
  rc : Int
  /-- caller's terminal attributes after the session -/
  termAttrs : Nat
  /-- number of `termios.tcsetattr(..., TCSADRAIN, old_settings)` restore
  calls performed -/
  restoreCount : Nat
  /-- the PTY master descriptor was closed -/
  masterClosed : Bool
  /-- group signals sent, in order -/
  signals : List SigEvent


/-- Function `NLShell._execute_interactive_command`, lines 377-490.  Control flow of
the source: capture `old_settings` and enter raw mode (both in one `try`
whose failure is non-fatal); run the Multiplexing/Draining phase inside a
`try` with a `KeyboardInterrupt` handler that escalates group termination
(SIGTERM, `wait(timeout=2)`, then SIGKILL, `wait(timeout=1)`, each wrapped so
failures fall through) and sets `returncode = -1`; a `finally` block that
restores `old_settings` when they were captured and closes the master
descriptor; and an outer `except Exception` that converts an escaped
exception into the triple `(1, "", str(e))`. -/
def execute_interactive_command (env : PtyEnv) : PtyResult :=
  let old : Option Nat := if env.tcgetattrOk then some env.callerAttrs else none
  let attrs1 : Nat :=
    if env.tcgetattrOk && env.setrawOk then env.rawAttrs else env.callerAttrs
  let inner : Option Int × List SigEvent :=
    match env.muxExit with
    | .completed rc => (some rc, [])
    | .raised => (none, [])
    | .interrupted =>
      let sigs :=
        if env.termSignalOk then
          if env.termWaitOk then [SigEvent.termGroup]
          else if env.killSignalOk then [SigEvent.termGroup, SigEvent.killGroup]
          else [SigEvent.termGroup]
        else if env.killSignalOk then [SigEvent.killGroup]
        else []
      (some (-1), sigs)
  let restoreCount : Nat := if old.isSome then 1 else 0
  let attrs2 : Nat := match old with | some a => a | none => attrs1
  let rc : Int := match inner.1 with | some rc => rc | none => 1
  ⟨rc, attrs2, restoreCount, true, inner.2⟩


/-- A concrete oracle used by closed witnesses: every `chdir` fails, nothing
is an executable file, spawned commands succeed with empty output. -/
def sys0 : Sys :=
  { home := "/home/user"
    chdir := fun _ _ => none
    chdirErr := fun _ _ => "No such file or directory"
    isExecFile := fun _ => false
    shellExec := fun _ => (0, "", "")
    ptyExec := fun _ => (0, "", "") }


/-- A concrete oracle whose batch executor fails exactly on the command
`"boom"`. -/
def sysC : Sys :=
  { home := "/home/user"
    chdir := fun _ _ => none
    chdirErr := fun _ _ => "No such file or directory"
    isExecFile := fun _ => false
    shellExec := fun c => if c = "boom" then (1, "", "failed") else (0, "ok", "")
    ptyExec := fun _ => (0, "", "") }


/-- A concrete WorkingDirectoryState for closed witnesses. -/
def st0 : ShellState := ⟨"/tmp", "/tmp"⟩


/-- PTY environment of an ordinary successful session. -/
def envDone : PtyEnv := ⟨7, 99, true, true, .completed 0, true, true, true⟩


/-- PTY environment of an interrupted session whose child survives the
SIGTERM wait window. -/
def envIntr : PtyEnv := ⟨7, 99, true, true, .interrupted, true, false, true⟩


/-- Fallback rule used only as the out-of-range default of `List.getD`. -/
def ruleD : SafetyRule := ⟨patLs, true, "", true⟩


/-- The allow-and-auto-run block of the rule table (indices 0-17);
`safety_rules = allowRules ++ denyRules` holds by computation. -/
def allowRules : List SafetyRule := [
  ⟨patLs, true, "Safe file listing", true⟩,
  ⟨patFind, true, "Safe file search with size", true⟩,
  ⟨patDu, true, "Safe disk usage check", true⟩,
  ⟨patDf, true, "Safe disk space check", true⟩,
  ⟨patWc, true, "Safe line count", true⟩,
  ⟨patFile, true, "Safe file type detection", true⟩,
  ⟨patHead, true, "Safe file preview", true⟩,
  ⟨patTail, true, "Safe file preview", true⟩,
  ⟨patGrep, true, "Safe text search", true⟩,
  ⟨patStat, true, "Safe file statistics", true⟩,
  ⟨patPwd, true, "Safe current directory", true⟩,
  ⟨patWhoami, true, "Safe user info", true⟩,
  ⟨patUname, true, "Safe system info", true⟩,
  ⟨patPs, true, "Safe process listing", true⟩,
  ⟨patTop, true, "Safe system snapshot", true⟩,
  ⟨patFree, true, "Safe memory info", true⟩,
  ⟨patUptime, true, "Safe uptime info", true⟩,
  ⟨patCat, true, "Safe text file reading", true⟩]


/-- The deny block of the rule table (indices 18-39). -/
def denyRules : List SafetyRule := [
  ⟨patRm, false, "File deletion not allowed", false⟩,
  ⟨patSudo, false, "Elevated privileges not allowed", false⟩,
  ⟨patChmod, false, "Permission changes not allowed", false⟩,
  ⟨patChown, false, "Ownership changes not allowed", false⟩,
  ⟨patMv, false, "File moving not allowed", false⟩,
  ⟨patCp, false, "System file copying not allowed", false⟩,
  ⟨patRedirEtc, false, "System directory writing not allowed", false⟩,
  ⟨patRedirUsr, false, "System directory writing not allowed", false⟩,
  ⟨patRedirBin, false, "System directory writing not allowed", false⟩,
  ⟨patDd, false, "Direct disk access not allowed", false⟩,
  ⟨patFdisk, false, "Disk partitioning not allowed", false⟩,
  ⟨patMkfs, false, "Filesystem creation not allowed", false⟩,
  ⟨patMount, false, "Mounting not allowed", false⟩,
  ⟨patUmount, false, "Unmounting not allowed", false⟩,
  ⟨patKill9, false, "Force kill not allowed", false⟩,
  ⟨patKillall, false, "Mass process termination not allowed", false⟩,
  ⟨patShutdown, false, "System shutdown not allowed", false⟩,
  ⟨patReboot, false, "System reboot not allowed", false⟩,
  ⟨patPoweroff, false, "System poweroff not allowed", false⟩,
  ⟨patHalt, false, "System halt not allowed", false⟩,
  ⟨patCurlBash, false, "Piped execution not allowed", false⟩,
  ⟨patWgetBash, false, "Piped execution not allowed", false⟩]


/-- The deny patterns named by claim C3: deletion, sudo, chmod/chown, mv,
dd, fdisk, mkfs, mount/umount, kill -9, killall,
shutdown/reboot/poweroff/halt, and curl-or-wget piped to bash. -/
def listedDenyPats : List Pat :=
  [patRm, patSudo, patChmod, patChown, patMv, patDd, patFdisk, patMkfs,
   patMount, patUmount, patKill9, patKillall, patShutdown, patReboot,
   patPoweroff, patHalt, patCurlBash, patWgetBash]


/-- Leading character pairs of the 18 allow-and-auto-run patterns. -/
def allowPairs : List (Char × Char) :=
  [('l', 's'), ('f', 'i'), ('d', 'u'), ('d', 'f'), ('w', 'c'), ('f', 'i'),
   ('h', 'e'), ('t', 'a'), ('g', 'r'), ('s', 't'), ('p', 'w'), ('w', 'h'),
   ('u', 'n'), ('p', 's'), ('t', 'o'), ('f', 'r'), ('u', 'p'), ('c', 'a')]


/-- Holds when `(c1, c2)` collides with no allow-and-auto-run pattern head. -/
def pairFree (c1 c2 : Char) : Bool :=
  allowPairs.all fun p => !(p.1 = c1 && p.2 = c2)


theorem matchP_emp (s : List Char) : matchP .emp s = false := by
  induction s with
  | nil => rfl
  | cons c t ih => simp [matchP, deriv, nullable, ih]


theorem matchFull_emp (s : List Char) : matchFull .emp s = false := by
  induction s with
  | nil => rfl
  | cons c t ih => simp [matchFull, deriv, ih]


theorem matchP_cat_emp (r : RE) (s : List Char) : matchP (.cat .emp r) s = false := by
  induction s with
  | nil => simp [matchP, nullable]
  | cons c t ih => simp [matchP, deriv, nullable, ih]


theorem matchFull_cat_emp (r : RE) (s : List Char) : matchFull (.cat .emp r) s = false := by
  induction s with
  | nil => simp [matchFull, nullable]
  | cons c t ih => simp [matchFull, deriv, nullable, ih]


theorem matchP_alt (a b : RE) (s : List Char) :
    matchP (.alt a b) s = (matchP a s || matchP b s) := by
  induction s generalizing a b with
  | nil => simp [matchP, nullable]
  | cons c t ih => simp [matchP, deriv, nullable, ih, Bool.or_assoc, Bool.or_left_comm]


theorem matchFull_alt (a b : RE) (s : List Char) :
    matchFull (.alt a b) s = (matchFull a s || matchFull b s) := by
  induction s generalizing a b with
  | nil => simp [matchFull, nullable]
  | cons c t ih => simp [matchFull, deriv, ih]


theorem matchP_cat_eps (r : RE) (s : List Char) : matchP (.cat .eps r) s = matchP r s := by
  induction s generalizing r with
  | nil => simp [matchP, nullable]
  | cons c t ih =>
      simp [matchP, deriv, nullable, matchP_alt, matchP_cat_emp]


theorem matchFull_cat_eps (r : RE) (s : List Char) :
    matchFull (.cat .eps r) s = matchFull r s := by
  induction s generalizing r with
  | nil => simp [matchFull, nullable]
  | cons c t ih =>
      simp [matchFull, deriv, nullable, matchFull_alt, matchFull_cat_emp]


/-- Unfolding rule for prefix matching against a literal leading character. -/
theorem matchP_cons (a : Char) (r : RE) (s : List Char) :
    matchP (.cat (.chr a) r) s =
      (match s with
       | [] => false
       | c :: t => if c = a then matchP r t else false) := by
  cases s with
  | nil => simp [matchP, nullable]
  | cons c t =>
      by_cases h : c = a
      · simp [matchP, deriv, nullable, h, matchP_cat_eps]
      · simp [matchP, deriv, nullable, h, matchP_cat_emp]


/-- Unfolding rule for prefix matching against a leading character class. -/
theorem matchP_cls (p : Char → Bool) (r : RE) (s : List Char) :
    matchP (.cat (.cls p) r) s =
      (match s with
       | [] => false
       | c :: t => if p c then matchP r t else false) := by
  cases s with
  | nil => simp [matchP, nullable]
  | cons c t =>
      by_cases h : p c
      · simp [matchP, deriv, nullable, h, matchP_cat_eps]
      · simp [matchP, deriv, nullable, h, matchP_cat_emp]


/-- Unfolding rule for full matching against a literal leading character. -/
theorem matchFull_cons (a : Char) (r : RE) (s : List Char) :
    matchFull (.cat (.chr a) r) s =
      (match s with
       | [] => false
       | c :: t => if c = a then matchFull r t else false) := by
  cases s with
  | nil => simp [matchFull, nullable]
  | cons c t =>
      by_cases h : c = a
      · simp [matchFull, deriv, nullable, h, matchFull_cat_eps]
      · simp [matchFull, deriv, nullable, h, matchFull_cat_emp]


/-- Unfolding rule for full matching against a leading character class. -/
theorem matchFull_cls (p : Char → Bool) (r : RE) (s : List Char) :
    matchFull (.cat (.cls p) r) s =
      (match s with
       | [] => false
       | c :: t => if p c then matchFull r t else false) := by
  cases s with
  | nil => simp [matchFull, nullable]
  | cons c t =>
      by_cases h : p c
      · simp [matchFull, deriv, nullable, h, matchFull_cat_eps]
      · simp [matchFull, deriv, nullable, h, matchFull_cat_emp]


example : check_command_safety "ls -la" = (true, true, "Safe file listing") := by decide


example : check_command_safety "rm -rf /tmp/x" = (false, false, "File deletion not allowed") := by decide


example : check_command_safety "make build" = (true, false, "Requires user confirmation") := by decide


example : check_command_safety "  PWD  " = (true, true, "Safe current directory") := by decide


example : check_command_safety "echo hi" = (true, true, "Basic safe command") := by decide


/-- C1: on every exit path of a PTY session — normal child completion, an
exception raised during multiplexing or draining, or a user interrupt — the
caller's original terminal attributes are restored when they were captured
(and are unchanged in any case), the master descriptor is closed, and the
restore call executes exactly once per session (never when capture failed). -/
theorem pty_session_restores_once (env : PtyEnv) :
    (execute_interactive_command env).termAttrs = env.callerAttrs ∧
    (execute_interactive_command env).masterClosed = true ∧
    (execute_interactive_command env).restoreCount ≤ 1 ∧
    (env.tcgetattrOk = true → (execute_interactive_command env).restoreCount = 1) := by
  rcases env with ⟨ca, ra, tg, sr, mx, ts, tw, ks⟩
  cases tg <;> cases sr <;> cases mx <;>
    simp [execute_interactive_command]


/-- Witness for C1 at a concrete environment. -/
theorem pty_session_restores_once_witness :
    (execute_interactive_command envDone).restoreCount = 1 ∧
    (execute_interactive_command envDone).termAttrs = 7 ∧
    (execute_interactive_command envDone).masterClosed = true :=
  ⟨(pty_session_restores_once envDone).2.2.2 rfl,
   (pty_session_restores_once envDone).1,
   (pty_session_restores_once envDone).2.1⟩


/-- C9: a KeyboardInterrupt during the multiplexing loop makes the session
signal the child's whole process group with SIGTERM, wait a bounded time,
escalate to a group SIGKILL when the child has not exited in that window,
and report the synthetic exit code `-1`. -/
theorem pty_interrupt_escalates (env : PtyEnv)
    (hm : env.muxExit = .interrupted) (ht : env.termSignalOk = true) :
    (execute_interactive_command env).rc = -1 ∧
    (env.termWaitOk = true →
      (execute_interactive_command env).signals = [SigEvent.termGroup]) ∧
    (env.termWaitOk = false → env.killSignalOk = true →
      (execute_interactive_command env).signals = [SigEvent.termGroup, SigEvent.killGroup]) := by
  rcases env with ⟨ca, ra, tg, sr, mx, ts, tw, ks⟩
  cases hm
  cases ht
  cases tw <;> cases ks <;> simp [execute_interactive_command]


/-- Witness for C9 at a concrete interrupted environment. -/
theorem pty_interrupt_escalates_witness :
    (execute_interactive_command envIntr).rc = -1 ∧
    (execute_interactive_command envIntr).signals = [SigEvent.termGroup, SigEvent.killGroup] :=
  ⟨(pty_interrupt_escalates envIntr rfl rfl).1,
   (pty_interrupt_escalates envIntr rfl rfl).2.2 rfl rfl⟩


/-- C5: a directory-change command whose target cannot be entered returns
exit code 1 with the underlying OS error text in the error field, and the
WorkingDirectoryState (process cwd and `current_dir`) is left unchanged. -/
theorem cd_failure_preserves_state (sys : Sys) (st : ShellState) (cmd : String)
    (hcd : startsWithL (pyStrip cmd.toList) ['c', 'd', ' '] = true)
    (hfail : sys.chdir st.processCwd (cdTarget sys cmd) = none) :
    execute_command sys st cmd =
      (.cdRoute, (1, "", sys.chdirErr st.processCwd (cdTarget sys cmd)), st) := by
  unfold execute_command
  rw [hcd]
  simp [hfail]


/-- Witness for C5: `cd /nonexistent` under an oracle whose `chdir` fails. -/
theorem cd_failure_preserves_state_witness :
    startsWithL (pyStrip ("cd /nonexistent").toList) ['c', 'd', ' '] = true ∧
    execute_command sys0 st0 "cd /nonexistent" =
      (.cdRoute, (1, "", "No such file or directory"), st0) := by
  refine ⟨by decide, ?_⟩
  have h := cd_failure_preserves_state sys0 st0 "cd /nonexistent" (by decide) rfl
  exact h


/-- C6 (failing input): the bare command `cd` does not satisfy
`command.strip().startswith('cd ')`, so it never reaches the special-cased
directory-change branch (whose home-directory default is therefore
unreachable); it is spawned as an ordinary batch subprocess, returns the
child's exit code with no output, and leaves WorkingDirectoryState unchanged
instead of changing to the home directory. -/
theorem bare_cd_goes_to_batch :
    startsWithL (pyStrip ("cd").toList) ['c', 'd', ' '] = false ∧
    execute_command sys0 st0 "cd" = (.batchRoute, (0, "", ""), st0) ∧
    st0.currentDir ≠ sys0.home := by
  refine ⟨by decide, ?_, by decide⟩
  rfl


theorem append_ne_empty_left (p q : String) (hp : p.length ≠ 0) : p ++ q ≠ "" := by
  intro h
  have h2 := congrArg String.length h
  rw [String.length_append] at h2
  simp at h2
  omega


/-- C4: for every command not beginning with `cd ` after stripping, the
agent's `auto_execute_safe_command` returns exit code 1 with a non-empty
error message and never spawns a process: the blocked and
needs-confirmation branches return early, and on the nominal execution
branch the expression `asyncio.create_subprocess_shell` raises `NameError`
(`asyncio` is unbound in ai_agent.py), which the handler converts to
`(1, "", str(e))`. -/
theorem agent_auto_execute_never_succeeds (sys : Sys) (cwd : String) (cmd : String)
    (h : startsWithL (pyStrip cmd.toList) ['c', 'd', ' '] = false) :
    (auto_execute_safe_command sys cwd cmd).rc = 1 ∧
    (auto_execute_safe_command sys cwd cmd).err ≠ "" ∧
    (auto_execute_safe_command sys cwd cmd).spawned = false := by
  unfold auto_execute_safe_command
  rcases hc : check_command_safety cmd with ⟨a, b, reason⟩
  cases a
  · exact ⟨rfl, append_ne_empty_left _ _ (by decide), rfl⟩
  · cases b
    · exact ⟨rfl, append_ne_empty_left _ _ (by decide), rfl⟩
    · simp only [h]
      refine ⟨rfl, ?_, rfl⟩
      show nameErr ≠ ""
      decide


/-- Witness for C4 at `ls -la` (a command the classifier marks
auto-executable, yet execution still fails). -/
theorem agent_auto_execute_never_succeeds_witness :
    (auto_execute_safe_command sys0 "/tmp" "ls -la").rc = 1 ∧
    (auto_execute_safe_command sys0 "/tmp" "ls -la").err ≠ "" :=
  ⟨(agent_auto_execute_never_succeeds sys0 "/tmp" "ls -la" (by decide)).1,
   (agent_auto_execute_never_succeeds sys0 "/tmp" "ls -la" (by decide)).2.1⟩


/-- C10 counterexample: `cd node` contains the substring `node`, so the
interactivity detector would return true for it, yet the dispatcher takes
the directory-change branch of `_execute_command` before the interactivity
check ever runs, so the command is not routed to the PTY session. -/
theorem interactive_substring_cd_counterexample :
    containsL (("cd node").toList.map Char.toLower) ("node").toList = true ∧
    is_interactive_command sys0 "cd node" = true ∧
    (execute_command sys0 st0 "cd node").1 ≠ Route.ptyRoute := by
  refine ⟨by decide, by decide, ?_⟩
  decide


/-- C10 (amended): every command containing `node`, `irb`, `ghci` or
`python -i` as a substring of its lowercasing — even inside an unrelated
word such as `ls node_modules` — makes the interactivity detector return
true, and every such command that is not special-cased as a
directory-change command (`cd ` prefix after stripping) is routed by the
dispatcher to the PTY session rather than the batch executor. -/
theorem interactive_substring_routes_to_pty (sys : Sys) (cmd : String)
    (h : (["python -i", "node", "irb", "ghci"].any fun prog =>
          containsL (cmd.toList.map Char.toLower) prog.toList) = true) :
    is_interactive_command sys cmd = true ∧
    ∀ st : ShellState, startsWithL (pyStrip cmd.toList) ['c', 'd', ' '] = false →
      (execute_command sys st cmd).1 = Route.ptyRoute := by
  have hdet : is_interactive_command sys cmd = true := by
    unfold is_interactive_command
    simp at h ⊢
    tauto
  refine ⟨hdet, ?_⟩
  intro st hcd
  unfold execute_command
  rw [hcd]
  simp [hdet]


/-- Witness for C10 (amended) at `ls node_modules`. -/
theorem interactive_substring_routes_to_pty_witness :
    is_interactive_command sys0 "ls node_modules" = true ∧
    (execute_command sys0 st0 "ls node_modules").1 = Route.ptyRoute :=
  ⟨(interactive_substring_routes_to_pty sys0 "ls node_modules" (by decide)).1,
   (interactive_substring_routes_to_pty sys0 "ls node_modules" (by decide)).2 st0 (by decide)⟩


/-- C2 counterexample: in auto-confirm mode the failure `break` of
`_execute_commands_with_confirmation` sits inside the `if not auto_confirm:`
block, so after `boom` exits with code 1 the later command `echo ok` is
still executed. -/
theorem auto_confirm_continues_after_failure :
    (execLoop sysC true st0 ["boom", "echo ok"]).1 = [("boom", 1), ("echo ok", 0)] := by
  decide


/-- C2 (amended): in interactive-confirm mode (auto_confirm = false) the
orchestrator halts at the first non-zero exit code: every executed command
except possibly the last one exited with code 0.  (In auto-confirm mode the
sequence continues past failures, see the counterexample.) -/
theorem interactive_mode_halts_on_failure (sys : Sys) (st : ShellState)
    (cmds : List String) :
    ∀ x ∈ (execLoop sys false st cmds).1.dropLast, x.2 = 0 := by
  induction cmds generalizing st with
  | nil =>
      intro x hx
      simp [execLoop] at hx
  | cons c rest ih =>
      intro x hx
      by_cases h : (execute_command sys st c).2.1.1 = 0
      · have hstep : (execLoop sys false st (c :: rest)).1 =
            (c, (0 : Int)) :: (execLoop sys false (execute_command sys st c).2.2 rest).1 := by
          rw [execLoop]
          simp [h]
        rw [hstep] at hx
        rcases hl : (execLoop sys false (execute_command sys st c).2.2 rest).1 with _ | ⟨y, ys⟩
        · rw [hl] at hx
          simp at hx
        · rw [hl] at hx
          rw [List.dropLast_cons₂] at hx
          rcases List.mem_cons.mp hx with h1 | h2
          · rw [h1]
          · have hmem := ih (execute_command sys st c).2.2 x
            rw [hl] at hmem
            exact hmem h2
      · have hstep : (execLoop sys false st (c :: rest)).1 =
            [(c, (execute_command sys st c).2.1.1)] := by
          rw [execLoop]
          simp [h]
        rw [hstep] at hx
        simp at hx


/-- Witness for C2 (amended): a two-command batch whose second command
fails; the only non-final executed command exited 0. -/
theorem interactive_mode_halts_on_failure_witness :
    (("echo ok", (0 : Int)) ∈ (execLoop sysC false st0 ["echo ok", "boom"]).1.dropLast) ∧
    ("echo ok", (0 : Int)).2 = 0 :=
  ⟨by decide,
   interactive_mode_halts_on_failure sysC st0 ["echo ok", "boom"] ("echo ok", 0) (by decide)⟩


theorem getD_eq_get {α : Type} (l : List α) (d : α) :
    ∀ n (h : n < l.length), l.getD n d = l.get ⟨n, h⟩ := by
  induction l with
  | nil =>
      intro n h
      simp at h
  | cons a t ih =>
      intro n h
      cases n with
      | zero => rfl
      | succ m => exact ih m (Nat.lt_of_succ_lt_succ h)


theorem findRule_none (rules : List SafetyRule) (cl : List Char)
    (h : ∀ r ∈ rules, pmatch r.pattern cl = false) : findRule rules cl = none := by
  induction rules with
  | nil => rfl
  | cons r rs ih =>
      have h' : ¬ (pmatch r.pattern cl = true) := by
        simp [h r (List.mem_cons_self r rs)]
      rw [findRule, if_neg h']
      exact ih fun r' hr' => h r' (List.mem_cons_of_mem _ hr')


/-- The safety-rule scan returns the first matching rule: whenever some rule
at index `i` matches, the returned rule sits at an index `k ≤ i`, it matches,
and every rule before `k` fails. -/
theorem findRule_min (rules : List SafetyRule) (cl : List Char) :
    ∀ i (hi : i < rules.length),
      pmatch ((rules.get ⟨i, hi⟩).pattern) cl = true →
      ∃ k, ∃ (hk : k < rules.length), k ≤ i ∧
        pmatch ((rules.get ⟨k, hk⟩).pattern) cl = true ∧
        (∀ m (hm : m < k), pmatch ((rules.get ⟨m, Nat.lt_trans hm hk⟩).pattern) cl = false) ∧
        findRule rules cl = some (rules.get ⟨k, hk⟩) := by
  induction rules with
  | nil =>
      intro i hi
      simp at hi
  | cons r rs ih =>
      intro i hi hm
      by_cases hr : pmatch r.pattern cl = true
      · refine ⟨0, Nat.succ_pos _, Nat.zero_le i, hr, ?_, ?_⟩
        · intro m hm'
          exact absurd hm' (Nat.not_lt_zero m)
        · rw [findRule, if_pos hr]
          rfl
      · cases i with
        | zero => exact absurd hm hr
        | succ i' =>
            have hi' : i' < rs.length := Nat.lt_of_succ_lt_succ hi
            obtain ⟨k, hk, hki, hkm, hbef, hfind⟩ := ih i' hi' hm
            have hrf : pmatch r.pattern cl = false := by
              simpa using hr
            refine ⟨k + 1, Nat.succ_lt_succ hk, Nat.succ_le_succ hki, hkm, ?_, ?_⟩
            · intro m hmk
              cases m with
              | zero => exact hrf
              | succ m' => exact hbef m' (Nat.lt_of_succ_lt_succ hmk)
            · rw [findRule, if_neg hr]
              exact hfind


/-- In the rule table, every rule declared at or before an
allow-and-auto-run rule is itself allow-and-auto-run (the allow block is a
prefix of the table). -/
theorem safety_rules_allow_front :
    ∀ j, j < safety_rules.length → ∀ k, k < j + 1 →
      (safety_rules.getD j ruleD).allowed = true →
      (safety_rules.getD j ruleD).auto_execute = true →
      (safety_rules.getD k ruleD).allowed = true ∧
      (safety_rules.getD k ruleD).auto_execute = true := by
  decide


/-- C7: the classifier normalizes the command (lowercase, then strip) before
matching, tests the rules in declaration order with the first matching rule
alone determining the result (every rule before the returned one fails, and
whenever some rule at index `i` matches, the returned rule is at an index
`k ≤ i`), every command matching an allow-and-auto-run rule classifies with
`auto_execute = true`, and concretely `ls -la` classifies as
`(true, true, "Safe file listing")`. -/
theorem classifier_first_match_wins :
    (∀ cmd : String,
      check_command_safety cmd = classifyN (pyStrip (cmd.toList.map Char.toLower))) ∧
    (∀ (cl : List Char) (i : Nat) (hi : i < safety_rules.length),
      pmatch ((safety_rules.get ⟨i, hi⟩).pattern) cl = true →
      ∃ k, ∃ (hk : k < safety_rules.length), k ≤ i ∧
        pmatch ((safety_rules.get ⟨k, hk⟩).pattern) cl = true ∧
        (∀ m (hm : m < k), pmatch ((safety_rules.get ⟨m, Nat.lt_trans hm hk⟩).pattern) cl = false) ∧
        classifyN cl = ((safety_rules.get ⟨k, hk⟩).allowed,
          (safety_rules.get ⟨k, hk⟩).auto_execute && (safety_rules.get ⟨k, hk⟩).allowed,
          (safety_rules.get ⟨k, hk⟩).reason)) ∧
    (∀ (cmd : String) (i : Nat) (hi : i < safety_rules.length),
      (safety_rules.get ⟨i, hi⟩).allowed = true →
      (safety_rules.get ⟨i, hi⟩).auto_execute = true →
      pmatch ((safety_rules.get ⟨i, hi⟩).pattern) (norm cmd) = true →
      (check_command_safety cmd).2.1 = true) ∧
    check_command_safety "ls -la" = (true, true, "Safe file listing") := by
  refine ⟨fun cmd => rfl, ?_, ?_, by decide⟩
  · intro cl i hi hm
    obtain ⟨k, hk, hki, hkm, hbef, hfind⟩ := findRule_min safety_rules cl i hi hm
    refine ⟨k, hk, hki, hkm, hbef, ?_⟩
    unfold classifyN
    rw [hfind]
  · intro cmd i hi hall hauto hm
    obtain ⟨k, hk, hki, hkm, hbef, hfind⟩ := findRule_min safety_rules (norm cmd) i hi hm
    have hpre := safety_rules_allow_front i hi k (by omega)
      (by rw [getD_eq_get _ _ i hi]; exact hall)
      (by rw [getD_eq_get _ _ i hi]; exact hauto)
    rw [getD_eq_get _ _ k hk] at hpre
    unfold check_command_safety classifyN
    rw [hfind]
    show ((safety_rules.get ⟨k, hk⟩).auto_execute && (safety_rules.get ⟨k, hk⟩).allowed) = true
    rw [hpre.1, hpre.2]
    rfl


/-- Witness for C7: rule 0 (`^ls\s`) matches `ls -la`, and the classifier
marks it auto-executable. -/
theorem classifier_first_match_wins_witness :
    (check_command_safety "ls -la").2.1 = true :=
  classifier_first_match_wins.2.2.1 "ls -la" 0 (by decide) (by decide) (by decide) (by decide)


/-- C8: a command matching no rule of the safety table and none of the
secondary trivially-safe patterns classifies as allowed but not
auto-executable, with reason `Requires user confirmation`. -/
theorem classifier_default_requires_confirmation (cmd : String)
    (h1 : ∀ r ∈ safety_rules, pmatch r.pattern (norm cmd) = false)
    (h2 : ∀ p ∈ safe_patterns, pmatch p (norm cmd) = false) :
    check_command_safety cmd = (true, false, "Requires user confirmation") := by
  unfold check_command_safety classifyN
  rw [findRule_none _ _ h1]
  have ha : (safe_patterns.any fun p => pmatch p (norm cmd)) = false := by
    simp only [List.any_eq_false]
    intro p hp
    simp [h2 p hp]
  simp [ha]


/-- Witness for C8 at `make build`, which matches nothing. -/
theorem classifier_default_requires_confirmation_witness :
    check_command_safety "make build" = (true, false, "Requires user confirmation") :=
  classifier_default_requires_confirmation "make build" (by decide) (by decide)


theorem matchP_cons_true (a : Char) (r : RE) (s : List Char) :
    matchP (.cat (.chr a) r) s = true ↔ ∃ t, s = a :: t ∧ matchP r t = true := by
  rw [matchP_cons]
  cases s with
  | nil => simp
  | cons c t =>
      by_cases h : c = a
      · subst h
        simp
      · simp [h]


theorem findRule_append (l1 l2 : List SafetyRule) (cl : List Char)
    (h : ∀ r ∈ l1, pmatch r.pattern cl = false) :
    findRule (l1 ++ l2) cl = findRule l2 cl := by
  induction l1 with
  | nil => rfl
  | cons a t ih =>
      have h' : ¬ (pmatch a.pattern cl = true) := by
        simp [h a (List.mem_cons_self a t)]
      rw [List.cons_append, findRule, if_neg h']
      exact ih fun r hr => h r (List.mem_cons_of_mem a hr)


theorem findRule_some (l : List SafetyRule) (cl : List Char)
    (h : (l.any fun r => pmatch r.pattern cl) = true) :
    ∃ r, r ∈ l ∧ findRule l cl = some r := by
  induction l with
  | nil => simp at h
  | cons a t ih =>
      by_cases ha : pmatch a.pattern cl = true
      · exact ⟨a, List.mem_cons_self a t, by rw [findRule, if_pos ha]⟩
      · have h' : (t.any fun r => pmatch r.pattern cl) = true := by
          rw [List.any_cons] at h
          have haf : pmatch a.pattern cl = false := by simpa using ha
          rw [haf] at h
          simpa using h
        obtain ⟨r, hr, hf⟩ := ih h'
        exact ⟨r, List.mem_cons_of_mem a hr, by rw [findRule, if_neg ha]; exact hf⟩


/-- Every rule of the deny block sets `allowed = false` and
`auto_execute = false`. -/
theorem denyRules_all_deny : ∀ r ∈ denyRules, r.allowed = false ∧ r.auto_execute = false := by
  decide


/-- Core of C3: whenever the first two characters of the normalized command
collide with no allow-and-auto-run pattern head and some deny rule matches,
the classifier scan resolves to a deny rule, so the command classifies as
`allowed = false, auto_execute = false`. -/
theorem classifyN_denyTail (c1 c2 : Char) (t : List Char)
    (hpair : pairFree c1 c2 = true)
    (hany : (denyRules.any fun r => pmatch r.pattern (c1 :: c2 :: t)) = true) :
    (classifyN (c1 :: c2 :: t)).1 = false ∧ (classifyN (c1 :: c2 :: t)).2.1 = false := by
  simp [pairFree, allowPairs] at hpair
  have hallow : ∀ r ∈ allowRules, pmatch r.pattern (c1 :: c2 :: t) = false := by
    intro r hr
    fin_cases hr <;>
      simp only [pmatch, patLs, patFind, patDu, patDf, patWc, patFile, patHead, patTail,
        patGrep, patStat, patPwd, patWhoami, patUname, patPs, patTop, patFree, patUptime,
        patCat, mkPat, mkPatE, pseq, lit, List.map, List.cons_append, List.nil_append,
        List.append_nil, matchP_cons, matchFull_cons] <;>
      simp <;> (intro h1 h2; subst h1; subst h2; simp_all)
  obtain ⟨r, hmem, hfind⟩ := findRule_some denyRules (c1 :: c2 :: t) hany
  have hd := denyRules_all_deny r hmem
  unfold classifyN
  rw [show safety_rules = allowRules ++ denyRules from rfl,
    findRule_append allowRules denyRules _ hallow, hfind]
  simp [hd.1, hd.2]


/-- Any normalized command matched by one of the listed deny patterns
classifies as `allowed = false, auto_execute = false`. -/
theorem classifyN_listed_deny (cl : List Char)
    (h : (listedDenyPats.any fun p => pmatch p cl) = true) :
    (classifyN cl).1 = false ∧ (classifyN cl).2.1 = false := by
  rw [List.any_eq_true] at h
  obtain ⟨p, hp, hm⟩ := h
  fin_cases hp
  · have hany : (denyRules.any fun r => pmatch r.pattern cl) = true := by
      rw [List.any_eq_true]
      exact ⟨⟨patRm, false, "File deletion not allowed", false⟩, by simp [denyRules], hm⟩
    simp [pmatch, patRm, mkPat, pseq, lit] at hm
    rw [matchP_cons_true] at hm
    obtain ⟨t1, rfl, hm⟩ := hm
    rw [matchP_cons_true] at hm
    obtain ⟨t2, rfl, hm⟩ := hm
    exact classifyN_denyTail _ _ t2 (by decide) hany
  · have hany : (denyRules.any fun r => pmatch r.pattern cl) = true := by
      rw [List.any_eq_true]
      exact ⟨⟨patSudo, false, "Elevated privileges not allowed", false⟩, by simp [denyRules], hm⟩
    simp [pmatch, patSudo, mkPat, pseq, lit] at hm
    rw [matchP_cons_true] at hm
    obtain ⟨t1, rfl, hm⟩ := hm
    rw [matchP_cons_true] at hm
    obtain ⟨t2, rfl, hm⟩ := hm
    exact classifyN_denyTail _ _ t2 (by decide) hany
  · have hany : (denyRules.any fun r => pmatch r.pattern cl) = true := by
      rw [List.any_eq_true]
      exact ⟨⟨patChmod, false, "Permission changes not allowed", false⟩, by simp [denyRules], hm⟩
    simp [pmatch, patChmod, mkPat, pseq, lit] at hm
    rw [matchP_cons_true] at hm
    obtain ⟨t1, rfl, hm⟩ := hm
    rw [matchP_cons_true] at hm
    obtain ⟨t2, rfl, hm⟩ := hm
    exact classifyN_denyTail _ _ t2 (by decide) hany
  · have hany : (denyRules.any fun r => pmatch r.pattern cl) = true := by
      rw [List.any_eq_true]
      exact ⟨⟨patChown, false, "Ownership changes not allowed", false⟩, by simp [denyRules], hm⟩
    simp [pmatch, patChown, mkPat, pseq, lit] at hm
    rw [matchP_cons_true] at hm
    obtain ⟨t1, rfl, hm⟩ := hm
    rw [matchP_cons_true] at hm
    obtain ⟨t2, rfl, hm⟩ := hm
    exact classifyN_denyTail _ _ t2 (by decide) hany
  · have hany : (denyRules.any fun r => pmatch r.pattern cl) = true := by
      rw [List.any_eq_true]
      exact ⟨⟨patMv, false, "File moving not allowed", false⟩, by simp [denyRules], hm⟩
    simp [pmatch, patMv, mkPat, pseq, lit] at hm
    rw [matchP_cons_true] at hm
    obtain ⟨t1, rfl, hm⟩ := hm
    rw [matchP_cons_true] at hm
    obtain ⟨t2, rfl, hm⟩ := hm
    exact classifyN_denyTail _ _ t2 (by decide) hany
  · have hany : (denyRules.any fun r => pmatch r.pattern cl) = true := by
      rw [List.any_eq_true]
      exact ⟨⟨patDd, false, "Direct disk access not allowed", false⟩, by simp [denyRules], hm⟩
    simp [pmatch, patDd, mkPat, pseq, lit] at hm
    rw [matchP_cons_true] at hm
    obtain ⟨t1, rfl, hm⟩ := hm
    rw [matchP_cons_true] at hm
    obtain ⟨t2, rfl, hm⟩ := hm
    exact classifyN_denyTail _ _ t2 (by decide) hany
  · have hany : (denyRules.any fun r => pmatch r.pattern cl) = true := by
      rw [List.any_eq_true]
      exact ⟨⟨patFdisk, false, "Disk partitioning not allowed", false⟩, by simp [denyRules], hm⟩
    simp [pmatch, patFdisk, mkPat, pseq, lit] at hm
    rw [matchP_cons_true] at hm
    obtain ⟨t1, rfl, hm⟩ := hm
    rw [matchP_cons_true] at hm
    obtain ⟨t2, rfl, hm⟩ := hm
    exact classifyN_denyTail _ _ t2 (by decide) hany
  · have hany : (denyRules.any fun r => pmatch r.pattern cl) = true := by
      rw [List.any_eq_true]
      exact ⟨⟨patMkfs, false, "Filesystem creation not allowed", false⟩, by simp [denyRules], hm⟩
    simp [pmatch, patMkfs, mkPat, pseq, lit] at hm
    rw [matchP_cons_true] at hm
    obtain ⟨t1, rfl, hm⟩ := hm
    rw [matchP_cons_true] at hm
    obtain ⟨t2, rfl, hm⟩ := hm
    exact classifyN_denyTail _ _ t2 (by decide) hany
  · have hany : (denyRules.any fun r => pmatch r.pattern cl) = true := by
      rw [List.any_eq_true]
      exact ⟨⟨patMount, false, "Mounting not allowed", false⟩, by simp [denyRules], hm⟩
    simp [pmatch, patMount, mkPat, pseq, lit] at hm
    rw [matchP_cons_true] at hm
    obtain ⟨t1, rfl, hm⟩ := hm
    rw [matchP_cons_true] at hm
    obtain ⟨t2, rfl, hm⟩ := hm
    exact classifyN_denyTail _ _ t2 (by decide) hany
  · have hany : (denyRules.any fun r => pmatch r.pattern cl) = true := by
      rw [List.any_eq_true]
      exact ⟨⟨patUmount, false, "Unmounting not allowed", false⟩, by simp [denyRules], hm⟩
    simp [pmatch, patUmount, mkPat, pseq, lit] at hm
    rw [matchP_cons_true] at hm
    obtain ⟨t1, rfl, hm⟩ := hm
    rw [matchP_cons_true] at hm
    obtain ⟨t2, rfl, hm⟩ := hm
    exact classifyN_denyTail _ _ t2 (by decide) hany
  · have hany : (denyRules.any fun r => pmatch r.pattern cl) = true := by
      rw [List.any_eq_true]
      exact ⟨⟨patKill9, false, "Force kill not allowed", false⟩, by simp [denyRules], hm⟩
    simp [pmatch, patKill9, mkPat, pseq, lit] at hm
    rw [matchP_cons_true] at hm
    obtain ⟨t1, rfl, hm⟩ := hm
    rw [matchP_cons_true] at hm
    obtain ⟨t2, rfl, hm⟩ := hm
    exact classifyN_denyTail _ _ t2 (by decide) hany
  · have hany : (denyRules.any fun r => pmatch r.pattern cl) = true := by
      rw [List.any_eq_true]
      exact ⟨⟨patKillall, false, "Mass process termination not allowed", false⟩, by simp [denyRules], hm⟩
    simp [pmatch, patKillall, mkPat, pseq, lit] at hm
    rw [matchP_cons_true] at hm
    obtain ⟨t1, rfl, hm⟩ := hm
    rw [matchP_cons_true] at hm
    obtain ⟨t2, rfl, hm⟩ := hm
    exact classifyN_denyTail _ _ t2 (by decide) hany
  · have hany : (denyRules.any fun r => pmatch r.pattern cl) = true := by
      rw [List.any_eq_true]
      exact ⟨⟨patShutdown, false, "System shutdown not allowed", false⟩, by simp [denyRules], hm⟩
    simp [pmatch, patShutdown, mkPat, pseq, lit] at hm
    rw [matchP_cons_true] at hm
    obtain ⟨t1, rfl, hm⟩ := hm
    rw [matchP_cons_true] at hm
    obtain ⟨t2, rfl, hm⟩ := hm
    exact classifyN_denyTail _ _ t2 (by decide) hany
  · have hany : (denyRules.any fun r => pmatch r.pattern cl) = true := by
      rw [List.any_eq_true]
      exact ⟨⟨patReboot, false, "System reboot not allowed", false⟩, by simp [denyRules], hm⟩
    simp [pmatch, patReboot, mkPat, pseq, lit] at hm
    rw [matchP_cons_true] at hm
    obtain ⟨t1, rfl, hm⟩ := hm
    rw [matchP_cons_true] at hm
    obtain ⟨t2, rfl, hm⟩ := hm
    exact classifyN_denyTail _ _ t2 (by decide) hany
  · have hany : (denyRules.any fun r => pmatch r.pattern cl) = true := by
      rw [List.any_eq_true]
      exact ⟨⟨patPoweroff, false, "System poweroff not allowed", false⟩, by simp [denyRules], hm⟩
    simp [pmatch, patPoweroff, mkPat, pseq, lit] at hm
    rw [matchP_cons_true] at hm
    obtain ⟨t1, rfl, hm⟩ := hm
    rw [matchP_cons_true] at hm
    obtain ⟨t2, rfl, hm⟩ := hm
    exact classifyN_denyTail _ _ t2 (by decide) hany
  · have hany : (denyRules.any fun r => pmatch r.pattern cl) = true := by
      rw [List.any_eq_true]
      exact ⟨⟨patHalt, false, "System halt not allowed", false⟩, by simp [denyRules], hm⟩
    simp [pmatch, patHalt, mkPat, pseq, lit] at hm
    rw [matchP_cons_true] at hm
    obtain ⟨t1, rfl, hm⟩ := hm
    rw [matchP_cons_true] at hm
    obtain ⟨t2, rfl, hm⟩ := hm
    exact classifyN_denyTail _ _ t2 (by decide) hany
  · have hany : (denyRules.any fun r => pmatch r.pattern cl) = true := by
      rw [List.any_eq_true]
      exact ⟨⟨patCurlBash, false, "Piped execution not allowed", false⟩, by simp [denyRules], hm⟩
    simp [pmatch, patCurlBash, mkPat, pseq, lit] at hm
    rw [matchP_cons_true] at hm
    obtain ⟨t1, rfl, hm⟩ := hm
    rw [matchP_cons_true] at hm
    obtain ⟨t2, rfl, hm⟩ := hm
    exact classifyN_denyTail _ _ t2 (by decide) hany
  · have hany : (denyRules.any fun r => pmatch r.pattern cl) = true := by
      rw [List.any_eq_true]
      exact ⟨⟨patWgetBash, false, "Piped execution not allowed", false⟩, by simp [denyRules], hm⟩
    simp [pmatch, patWgetBash, mkPat, pseq, lit] at hm
    rw [matchP_cons_true] at hm
    obtain ⟨t1, rfl, hm⟩ := hm
    rw [matchP_cons_true] at hm
    obtain ⟨t2, rfl, hm⟩ := hm
    exact classifyN_denyTail _ _ t2 (by decide) hany


/-- C3: every command whose normalization matches one of the deny rules of
the safety table (deletion, sudo, chmod/chown, mv, dd, fdisk, mkfs,
mount/umount, kill -9, killall, shutdown/reboot/poweroff/halt, curl-or-wget
piped to bash) classifies as `allowed = false, auto_execute = false`, and
the agent's auto-execution path spawns no process for it, returning exit
code 1 with a blocked-for-safety message. -/
theorem deny_rules_blocked (cmd : String)
    (h : (listedDenyPats.any fun p => pmatch p (norm cmd)) = true) :
    (check_command_safety cmd).1 = false ∧ (check_command_safety cmd).2.1 = false ∧
    ∀ sys cwd, (auto_execute_safe_command sys cwd cmd).rc = 1 ∧
      (auto_execute_safe_command sys cwd cmd).spawned = false ∧
      (auto_execute_safe_command sys cwd cmd).err =
        "Command blocked for safety: " ++ (check_command_safety cmd).2.2 := by
  have hc := classifyN_listed_deny (norm cmd) h
  refine ⟨hc.1, hc.2, fun sys cwd => ?_⟩
  have ha : (check_command_safety cmd).1 = false := hc.1
  simp only [auto_execute_safe_command, ha]
  exact ⟨rfl, rfl, rfl⟩


/-- Witness for C3 at `sudo reboot`. -/
theorem deny_rules_blocked_witness :
    check_command_safety "sudo reboot" = (false, false, "Elevated privileges not allowed") ∧
    (auto_execute_safe_command sys0 "/tmp" "sudo reboot").rc = 1 ∧
    (auto_execute_safe_command sys0 "/tmp" "sudo reboot").spawned = false ∧
    (auto_execute_safe_command sys0 "/tmp" "sudo reboot").err =
      "Command blocked for safety: " ++ (check_command_safety "sudo reboot").2.2 :=
  ⟨by decide,
   ((deny_rules_blocked "sudo reboot" (by decide)).2.2 sys0 "/tmp").1,
   ((deny_rules_blocked "sudo reboot" (by decide)).2.2 sys0 "/tmp").2.1,
   ((deny_rules_blocked "sudo reboot" (by decide)).2.2 sys0 "/tmp").2.2⟩

end NLShell
